import Mathlib

/-
Verification of the pipeline core of the research-paper summarization
repository.  Python strings are modelled as Lean strings; slicing,
strip and lower are re-implemented over the underlying character list.
External capabilities (search clients, embedding model, generation
model, text-to-speech) enter as explicit function parameters, and
fallible calls return Except values.
-/

/-- Python slice s[:n] over the character data of a string. -/
def pyTake (n : Nat) (s : String) : String :=
  ⟨s.data.take n⟩

/-- Python str.strip: whitespace removed from both ends. -/
def pyStrip (s : String) : String :=
  ⟨((s.data.dropWhile Char.isWhitespace).reverse.dropWhile Char.isWhitespace).reverse⟩

/-- Python os.path.join for two relative components. -/
def joinPath (a b : String) : String :=
  a ++ "/" ++ b

/-- Paper metadata dictionary as consumed by citation_generator in
MultiAgent/tools.py; a missing dictionary key is None. -/
structure PaperMeta where
  authors : List String
  year : Option String
  title : Option String
  journal : Option String
  publisher : Option String
  doi : Option String
  url : Option String

/-- Author formatting rule of citation_generator (tools.py lines 150-157). -/
def format_authors : List String → String
  | [] => "Unknown"
  | [a] => a
  | [a, b] => a ++ " & " ++ b
  | a :: _ :: _ :: _ => a ++ " et al."

/-- Base citation string (tools.py line 168). -/
def citationBase (m : PaperMeta) : String :=
  format_authors m.authors ++ " (" ++ m.year.getD "n.d." ++ "). " ++
    m.title.getD "Unknown Title" ++ "."

/-- Journal clause (tools.py lines 169-170). -/
def citationWithJournal (m : PaperMeta) : String :=
  if m.journal.getD "" ≠ "" then citationBase m ++ " " ++ m.journal.getD "" ++ "."
  else citationBase m

/-- Publisher clause (tools.py lines 171-172): only when no journal. -/
def citationWithPublisher (m : PaperMeta) : String :=
  if m.publisher.getD "" ≠ "" ∧ m.journal.getD "" = "" then
    citationWithJournal m ++ " " ++ m.publisher.getD "" ++ "."
  else citationWithJournal m

/-- Citation body before the final strip (tools.py lines 173-176). -/
def citationBody (m : PaperMeta) : String :=
  if m.doi.getD "" ≠ "" then
    citationWithPublisher m ++ " https://doi.org/" ++ m.doi.getD ""
  else if m.url.getD "" ≠ "" then
    citationWithPublisher m ++ " Retrieved from " ++ m.url.getD ""
  else citationWithPublisher m

/-- The apa entry returned by citation_generator (tools.py line 178). -/
def citation_generator (m : PaperMeta) : String :=
  pyStrip (citationBody m)

/-- Citation string exactly as the specification words it: venue clause
first from the journal, else from the publisher, then either the doi
link when a DOI exists or the Retrieved-from clause otherwise. -/
def citationSpecVenue (m : PaperMeta) : String :=
  if m.journal.getD "" ≠ "" then citationBase m ++ " " ++ m.journal.getD "" ++ "."
  else if m.publisher.getD "" ≠ "" then citationBase m ++ " " ++ m.publisher.getD "" ++ "."
  else citationBase m

/-- Full specification-side citation string. -/
def citationSpecString (m : PaperMeta) : String :=
  if m.doi.getD "" ≠ "" then citationSpecVenue m ++ " https://doi.org/" ++ m.doi.getD ""
  else citationSpecVenue m ++ " Retrieved from " ++ m.url.getD ""

/-- Concrete metadata record used to instantiate the citation theorem. -/
def metaFixture : PaperMeta :=
  ⟨["Jane Doe", "John Roe"], some "2021", some "Deep Title", some "Journal X",
    none, some "10.1000/xyz", some "https://example.org/p"⟩

/-- Pipeline stages of the crew as wired by _map_tasks in main.py. -/
inductive Stage where
  | search
  | upload
  | process
  | classification
  | summary
  | synthesis
  | audio
deriving DecidableEq

/-- Order in which _map_tasks lists the tasks (main.py lines 55-68);
the crew is built with the sequential process, which runs the tasks in
exactly this order, each one finishing before the next starts. -/
def taskOrder : List Stage :=
  [Stage.search, Stage.upload, Stage.process, Stage.classification,
   Stage.summary, Stage.synthesis, Stage.audio]

/-- Declared context, that is the upstream dependencies, of each task
as rebuilt by _map_tasks (main.py lines 55-68). -/
def taskContext : Stage → List Stage
  | Stage.search => []
  | Stage.upload => []
  | Stage.process => [Stage.search, Stage.upload]
  | Stage.classification => [Stage.process]
  | Stage.summary => [Stage.classification]
  | Stage.synthesis => [Stage.summary]
  | Stage.audio => [Stage.synthesis]

/-- Slot of a stage in the sequential run; a stage starts once every
stage in an earlier slot has completed. -/
def stagePosition (s : Stage) : Nat := taskOrder.indexOf s

/-- text_summarizer (tools.py lines 180-189): the model capability cap
receives the input truncated to 1024 characters together with the
generation bounds 500 and 50 that the code passes. -/
def text_summarizer (cap : String → Nat → Nat → String) (text : String) : String :=
  cap (pyTake 1024 text) 500 50

/-- Capability fixture meeting the generation-bound contract. -/
def capFixture : String → Nat → Nat → String :=
  fun s _ _ => pyTake 500 s

/-- Sample input text for the summarizer witness. -/
def sampleText : String :=
  "This survey reviews transformer efficiency papers across hardware and systems venues."

/-- audio_generator (tools.py lines 213-220): returns the mp3 path and
the text actually sent to the speech capability; hexTok stands for the
random uuid4 hex draw made inside the function. -/
def audio_generator (text hexTok : String) : String × String :=
  (joinPath "audio_files" ("audio_" ++ pyTake 8 hexTok ++ ".mp3"), pyTake 5000 text)

/-- Audio artifact record. Modelled from the spec: the structured audio
entry holding file path, kind and associated paper or topic is
described by audio_task (tasks.py lines 123-147) and section 4.4 of the
design; no record-building code exists in src. -/
structure AudioArtifact where
  file_path : String
  kind : String
  associated : String

/-- Assembly of one audio artifact: the path comes from
audio_generator, the association is kept in the metadata fields. -/
def mkAudioArtifact (text hexTok kind assoc : String) : AudioArtifact :=
  ⟨(audio_generator text hexTok).1, kind, assoc⟩

/-- Per-session directory (main.py line 83). -/
def result_dir (sid : String) : String := joinPath "results" sid

/-- Topic slug used for synthesis filenames (main.py line 125). -/
def topicSlug (t : String) : String :=
  ⟨(t.data.map Char.toLower).map (fun c => if c = ' ' then '_' else c)⟩

/-- Result payload fields that _save_results writes out as individual
files (main.py lines 109-127). -/
structure SaveInput where
  summaries : List (String × String)
  syntheses : List (String × String)

/-- File paths written by _save_results for one session. -/
def save_results_paths (sid : String) (r : SaveInput) : List String :=
  joinPath (result_dir sid) "results.json" ::
    (r.summaries.map
      (fun ps => joinPath (joinPath (result_dir sid) "summaries") (ps.1 ++ ".md")) ++
     r.syntheses.map
      (fun ts => joinPath (joinPath (result_dir sid) "syntheses") (topicSlug ts.1 ++ ".md")))

/-- Root check: root is a character-wise leading segment of p. -/
def pathHasRoot (root p : String) : Bool :=
  root.data.isPrefixOf p.data

/-- Save-input fixture for the persisted-layout witness. -/
def saveFixture : SaveInput :=
  ⟨[("paper1", "summary text")], [("Machine Learning", "synthesis text")]⟩

/-- Process environment: the optional OPENAI_API_KEY variable. -/
structure PyEnv where
  openai_key : Option String

/-- First constructor body of ResearchPaperSummarizer (main.py lines
25-30): rejects a missing API key with a ValueError. -/
def init_v1 (env : PyEnv) (api_key : Option String) : Except String PyEnv :=
  match api_key.orElse (fun _ => env.openai_key) with
  | none => Except.error "OpenAI API key is required. Set via .env or parameter."
  | some k => Except.ok ⟨some k⟩

/-- Second constructor body (main.py lines 32-51): builds agents, tasks
and the crew and never inspects the API key. -/
def init_v2 (env : PyEnv) : Except String PyEnv :=
  Except.ok env

/-- The class body binds the constructor name twice in source order;
Python executes the body sequentially, so the later binding wins. -/
def classBodyMethods : List (String × (PyEnv → Except String PyEnv)) :=
  [("__init__", fun env => init_v1 env none), ("__init__", fun env => init_v2 env)]

/-- Last-binding-wins resolution of a class-body name. -/
def resolveMethod (body : List (String × (PyEnv → Except String PyEnv))) (nm : String) :
    Option (PyEnv → Except String PyEnv) :=
  body.foldl (fun acc kv => if kv.1 = nm then some kv.2 else acc) none

/-- Calling ResearchPaperSummarizer() dispatches to the resolved
constructor binding. -/
def research_paper_summarizer_init (env : PyEnv) : Except String PyEnv :=
  match resolveMethod classBodyMethods "__init__" with
  | some f => f env
  | none => Except.error "TypeError"

/-- Raw Semantic Scholar hit as read by semantic_scholar_search. -/
structure SSRecord where
  title : String
  authors : List String
  abstract : String
  year : String
  url : String
  externalIds : Option (List (String × String))

/-- Normalized per-channel paper dictionary (tools.py lines 58-69). -/
structure ChannelPaper where
  title : String
  authors : List String
  abstract : String
  year : String
  url : String
  doi : String
  source : String

/-- DOI extraction from the external ids (tools.py line 65). -/
def ssDoi (r : SSRecord) : String :=
  match r.externalIds with
  | some ids => (ids.lookup "DOI").getD ""
  | none => ""

/-- semantic_scholar_search (tools.py lines 52-71): a failing fetch is
re-raised as a RuntimeError carrying the wrapped message; a succeeding
fetch is mapped to the normalized records. -/
def semantic_scholar_search (fetched : Except String (List SSRecord)) :
    Except String (List ChannelPaper) :=
  match fetched with
  | Except.error e => Except.error ("Error searching Semantic Scholar: " ++ e)
  | Except.ok rs => Except.ok (rs.map (fun r =>
      ⟨r.title, r.authors, r.abstract, r.year, r.url, ssDoi r, "Semantic Scholar"⟩))

/-- Aggregate crew output dictionary read by process_query. -/
structure CrewOutput where
  papers : List ChannelPaper
  summaries : List (String × String)
  syntheses : List (String × String)
  audio_files : List String

/-- Return value of process_query (main.py lines 99-107): the session
id and the four counts; there is no error field. -/
structure QueryResponse where
  session_id : String
  papers_count : Nat
  summaries_count : Nat
  syntheses_count : Nat
  audio_files_count : Nat

/-- Session id: the first eight characters of the uuid4 draw
(main.py line 82). -/
def make_session_id (uuidStr : String) : String := pyTake 8 uuidStr

/-- os.makedirs with exist_ok set: an already existing directory is
reused silently, with no error and no collision handling
(main.py line 84). -/
def makedirs_exist_ok (existing : List String) (d : String) : List String :=
  if existing.contains d then existing else d :: existing

/-- process_query (main.py lines 81-107): allocates the session id and
directory, runs the crew, and forwards its outcome; a raised error
passes through unhandled. -/
def process_query (existing : List String) (uuidStr : String)
    (kickoff : Except String CrewOutput) : List String × Except String QueryResponse :=
  let sid := make_session_id uuidStr
  let dirs := makedirs_exist_ok existing (result_dir sid)
  match kickoff with
  | Except.error e => (dirs, Except.error e)
  | Except.ok r =>
      (dirs, Except.ok ⟨sid, r.papers.length, r.summaries.length, r.syntheses.length,
        r.audio_files.length⟩)

/-- Empty crew output for the collision counterexample. -/
def emptyCrewOutput : CrewOutput := ⟨[], [], [], []⟩

/-- Primary topic selection. Modelled from the spec: the highest score
wins and an earlier topic is kept on ties (sections 4.2 and 8 of the
design, classification_task in tasks.py lines 62-78); the selection
itself is carried out by the classification agent, not by code in src. -/
def pickPrimary (scores : String → ℚ) : String → List String → String
  | t, [] => t
  | t, u :: us =>
      if scores t < scores u then pickPrimary scores u us else pickPrimary scores t us

/-- Secondary topics. Modelled from the spec: topics other than the
primary whose score is strictly above the 0.5 threshold. -/
def secondaryTopics (scores : String → ℚ) (topics : List String) (p : String) :
    List String :=
  topics.filter (fun u => decide (u ≠ p ∧ 1 / 2 < scores u))

/-- Classification of one paper against the caller topic list. -/
def assignTopics (scores : String → ℚ) (topics : List String) :
    Option (String × List String) :=
  match topics with
  | [] => none
  | t :: ts =>
      some (pickPrimary scores t ts, secondaryTopics scores (t :: ts) (pickPrimary scores t ts))

/-- Tie fixture from the design tests: both topics score 0.7. -/
def scoresFixture : String → ℚ :=
  fun t => if t = "B" then 7 / 10 else if t = "A" then 7 / 10 else 0

/-- Topic order fixture with B listed first. -/
def topicsFixture : List String := ["B", "A"]

/-- Dot product of two embedding vectors, indexed like numpy over the
length of the first. -/
noncomputable def dotP (xs ys : List ℝ) : ℝ :=
  ∑ i in Finset.range xs.length, xs.getD i 0 * ys.getD i 0

/-- Cosine similarity as computed by sklearn cosine_similarity; a zero
denominator yields score zero. -/
noncomputable def cosineSim (xs ys : List ℝ) : ℝ :=
  dotP xs ys / (Real.sqrt (dotP xs xs) * Real.sqrt (dotP ys ys))

/-- topic_classifier (tools.py lines 191-198): the embedding model is
the external capability encode; each topic is paired with the cosine
similarity between the text embedding and the topic embedding. -/
noncomputable def topic_classifier (encode : String → List ℝ) (text : String)
    (topics : List String) : List (String × ℝ) :=
  topics.map (fun t => (t, cosineSim (encode text) (encode t)))

/-- Constant embedding fixture. -/
noncomputable def encodeFixture : String → List ℝ := fun _ => [1, 0]

/-- Embedding fixture giving opposite directions to the paper text and
the topic. -/
noncomputable def encodeCex : String → List ℝ :=
  fun s => if s = "t" then [-1, 0] else [1, 0]

theorem citationWithPublisher_eq_spec (m : PaperMeta) :
    citationWithPublisher m = citationSpecVenue m := by
  unfold citationWithPublisher citationSpecVenue citationWithJournal
  by_cases hj : m.journal.getD "" = "" <;> by_cases hp : m.publisher.getD "" = "" <;>
    simp [hj, hp]

theorem citationBody_eq_spec (m : PaperMeta)
    (hweb : m.doi.getD "" ≠ "" ∨ m.url.getD "" ≠ "") :
    citationBody m = citationSpecString m := by
  unfold citationBody citationSpecString
  by_cases hd : m.doi.getD "" = ""
  · have hu : m.url.getD "" ≠ "" := hweb.resolve_left (fun hne => hne hd)
    simp [hd, hu, citationWithPublisher_eq_spec]
  · simp [hd, citationWithPublisher_eq_spec]

/-- Claim C3: for every paper metadata record (with either a DOI or a
url present, and no stray outer whitespace in the parts), the citation
formatter produces exactly the string described by the specification:
the authors clause, year, title, venue clause and link clause. -/
theorem citation_generator_matches_spec (m : PaperMeta)
    (hweb : m.doi.getD "" ≠ "" ∨ m.url.getD "" ≠ "")
    (hws : pyStrip (citationSpecString m) = citationSpecString m) :
    citation_generator m = citationSpecString m := by
  unfold citation_generator
  rw [citationBody_eq_spec m hweb, hws]

/-- Witness for claim C3 at a concrete metadata record. -/
theorem citation_generator_matches_spec_witness :
    citation_generator metaFixture = citationSpecString metaFixture :=
  citation_generator_matches_spec metaFixture (Or.inl (by decide)) (by decide)

/-- Claim C5: under the sequential process every declared upstream
dependency of a task sits strictly earlier in the task order and hence
has completed before the task starts; in particular audio rendering
starts only after both the summarization task and the synthesis task
have completed. -/
theorem stage_runs_after_dependencies :
    (∀ s : Stage, ∀ d ∈ taskContext s, stagePosition d < stagePosition s) ∧
    stagePosition Stage.summary < stagePosition Stage.audio ∧
    stagePosition Stage.synthesis < stagePosition Stage.audio := by
  refine ⟨fun s => ?_, by decide, by decide⟩
  cases s <;> decide

theorem pyTake_length (n : Nat) (s : String) : (pyTake n s).length = min n s.length := by
  cases s with
  | mk data => exact List.length_take n data

/-- Claim C6: the summarizer hands the capability at most 1024
characters of the source, and whenever the capability honors the
passed generation bounds, the output never exceeds the cap of 500 and
is below the minimum of 50 only when the source text itself is
shorter. -/
theorem text_summarizer_bounded (cap : String → Nat → Nat → String) (text : String)
    (hcap : ∀ s, (cap s 500 50).length ≤ 500 ∧
      (50 ≤ (cap s 500 50).length ∨ s.length < 50)) :
    (pyTake 1024 text).length ≤ 1024 ∧
    (text_summarizer cap text).length ≤ 500 ∧
    (50 ≤ (text_summarizer cap text).length ∨ text.length < 50) := by
  have h1 : (pyTake 1024 text).length = min 1024 text.length := pyTake_length 1024 text
  obtain ⟨hA, hB⟩ := hcap (pyTake 1024 text)
  refine ⟨by omega, hA, ?_⟩
  rcases hB with hB | hB
  · exact Or.inl hB
  · right
    omega

theorem capFixture_contract (s : String) :
    (capFixture s 500 50).length ≤ 500 ∧
    (50 ≤ (capFixture s 500 50).length ∨ s.length < 50) := by
  have h : (capFixture s 500 50).length = min 500 s.length := pyTake_length 500 s
  omega

/-- Witness for claim C6 at a concrete capability and text. -/
theorem text_summarizer_bounded_witness :
    (pyTake 1024 sampleText).length ≤ 1024 ∧
    (text_summarizer capFixture sampleText).length ≤ 500 ∧
    (50 ≤ (text_summarizer capFixture sampleText).length ∨ sampleText.length < 50) :=
  text_summarizer_bounded capFixture sampleText capFixture_contract

/-- Claim C10: the second constructor definition replaces the first,
so construction succeeds in every environment, with or without the
key, while the key-validation error branch of the first definition is
present but unreachable from the public constructor. -/
theorem summarizer_constructor_never_requires_key :
    (∀ env : PyEnv, research_paper_summarizer_init env = Except.ok env) ∧
    init_v1 ⟨none⟩ none =
      Except.error "OpenAI API key is required. Set via .env or parameter." :=
  ⟨fun _ => rfl, rfl⟩

/-- Claim C9: the rendered audio filename is derived from the random
token only, independent of the text content and of the associated
paper or topic, which is recorded solely in the artifact metadata. -/
theorem audio_filename_content_independent (t1 t2 hexTok kind a1 a2 : String) :
    (audio_generator t1 hexTok).1 = (audio_generator t2 hexTok).1 ∧
    (audio_generator t1 hexTok).1 = "audio_files/" ++ ("audio_" ++ pyTake 8 hexTok ++ ".mp3") ∧
    (mkAudioArtifact t1 hexTok kind a1).file_path =
      (mkAudioArtifact t2 hexTok kind a2).file_path ∧
    (mkAudioArtifact t1 hexTok kind a1).associated = a1 :=
  ⟨rfl, rfl, rfl, rfl⟩

/-- Claim C4 amended: a failing source channel raises a RuntimeError
wrapping the cause instead of recording the failure and returning
partial results; process_query installs no handler, forwards a raised
error unchanged, and its success value carries only the session id and
the four counts. -/
theorem channel_failure_raises_and_propagates :
    (∀ e, semantic_scholar_search (Except.error e) =
      Except.error ("Error searching Semantic Scholar: " ++ e)) ∧
    (∀ existing uuidStr e, (process_query existing uuidStr (Except.error e)).2 =
      Except.error e) ∧
    (∀ existing uuidStr out, (process_query existing uuidStr (Except.ok out)).2 =
      Except.ok ⟨make_session_id uuidStr, out.papers.length, out.summaries.length,
        out.syntheses.length, out.audio_files.length⟩) :=
  ⟨fun _ => rfl, fun _ _ _ => rfl, fun _ _ _ => rfl⟩

/-- Counterexample to claim C4 as stated: at a concrete run the failing
channel raises instead of recording a failure against the session, and
the raised error passes out of process_query unhandled, aborting the
run with no papers from the remaining channels. -/
theorem channel_failure_aborts_run :
    semantic_scholar_search (Except.error "network timeout") =
      Except.error "Error searching Semantic Scholar: network timeout" ∧
    (process_query [] "f47ac10b-58cc-4372-a567-0e02b2c3d479"
        (Except.error "Error searching Semantic Scholar: network timeout")).2 =
      Except.error "Error searching Semantic Scholar: network timeout" :=
  ⟨rfl, rfl⟩

theorem string_append_cancel_left (p a b : String) (h : p ++ a = p ++ b) : a = b := by
  cases p with
  | mk pd =>
    cases a with
    | mk ad =>
      cases b with
      | mk bd =>
        have hd : pd ++ ad = pd ++ bd := congrArg String.data h
        exact congrArg String.mk (List.append_cancel_left hd)

/-- Claim C7 amended: the session id is the truncated random token with
no collision check against existing directories; still, two calls that
draw distinct truncated tokens get distinct session ids and distinct
result directories. -/
theorem distinct_tokens_give_disjoint_sessions (u1 u2 : String)
    (h : make_session_id u1 ≠ make_session_id u2) :
    make_session_id u1 ≠ make_session_id u2 ∧
    result_dir (make_session_id u1) ≠ result_dir (make_session_id u2) := by
  refine ⟨h, fun heq => h ?_⟩
  exact string_append_cancel_left ("results" ++ "/") _ _ heq

/-- Witness for claim C7 amended at two concrete uuid draws. -/
theorem distinct_tokens_give_disjoint_sessions_witness :
    make_session_id "aaaaaaaa-1111-2222-3333-444444444444" ≠
      make_session_id "bbbbbbbb-1111-2222-3333-444444444444" ∧
    result_dir (make_session_id "aaaaaaaa-1111-2222-3333-444444444444") ≠
      result_dir (make_session_id "bbbbbbbb-1111-2222-3333-444444444444") :=
  distinct_tokens_give_disjoint_sessions _ _ (by decide)

/-- Counterexample to claim C7 as stated: two distinct uuid draws can
share their first eight characters, giving equal session ids, and an
allocation whose directory already exists proceeds silently, reusing
the directory rather than collision checking it. -/
theorem session_id_collision_unchecked :
    make_session_id "deadbeef-aaaa-4372-a567-0e02b2c3d479" =
      make_session_id "deadbeef-cccc-4372-a567-0e02b2c3d479" ∧
    (process_query [result_dir "deadbeef"] "deadbeef-aaaa-4372-a567-0e02b2c3d479"
        (Except.ok emptyCrewOutput)).1 = [result_dir "deadbeef"] ∧
    (process_query [result_dir "deadbeef"] "deadbeef-aaaa-4372-a567-0e02b2c3d479"
        (Except.ok emptyCrewOutput)).2 = Except.ok ⟨"deadbeef", 0, 0, 0, 0⟩ :=
  ⟨by decide, by decide, rfl⟩

theorem pickPrimary_le (scores : String → ℚ) :
    ∀ (ts : List String) (t : String),
      scores t ≤ scores (pickPrimary scores t ts) ∧
      ∀ u ∈ ts, scores u ≤ scores (pickPrimary scores t ts) := by
  intro ts
  induction ts with
  | nil => intro t; exact ⟨le_refl _, by simp⟩
  | cons v vs ih =>
    intro t
    by_cases h : scores t < scores v
    · have heq : pickPrimary scores t (v :: vs) = pickPrimary scores v vs := by
        simp [pickPrimary, h]
      rw [heq]
      refine ⟨le_of_lt (lt_of_lt_of_le h (ih v).1), ?_⟩
      intro u hu
      rcases List.mem_cons.mp hu with rfl | hu2
      · exact (ih u).1
      · exact (ih v).2 u hu2
    · have heq : pickPrimary scores t (v :: vs) = pickPrimary scores t vs := by
        simp [pickPrimary, h]
      rw [heq]
      refine ⟨(ih t).1, ?_⟩
      intro u hu
      rcases List.mem_cons.mp hu with rfl | hu2
      · exact le_trans (not_lt.mp h) (ih t).1
      · exact (ih t).2 u hu2

theorem pickPrimary_mem (scores : String → ℚ) :
    ∀ (ts : List String) (t : String), pickPrimary scores t ts ∈ t :: ts := by
  intro ts
  induction ts with
  | nil => intro t; simp [pickPrimary]
  | cons v vs ih =>
    intro t
    by_cases h : scores t < scores v
    · have heq : pickPrimary scores t (v :: vs) = pickPrimary scores v vs := by
        simp [pickPrimary, h]
      rw [heq]
      exact List.mem_cons_of_mem t (ih v)
    · have heq : pickPrimary scores t (v :: vs) = pickPrimary scores t vs := by
        simp [pickPrimary, h]
      rw [heq]
      rcases List.mem_cons.mp (ih t) with h2 | h2
      · rw [h2]
        exact List.mem_cons_self _ _
      · exact List.mem_cons_of_mem t (List.mem_cons_of_mem v h2)

theorem pickPrimary_strict (scores : String → ℚ) :
    ∀ (ts : List String) (t : String),
      pickPrimary scores t ts ≠ t → scores t < scores (pickPrimary scores t ts) := by
  intro ts
  induction ts with
  | nil =>
    intro t hne
    simp [pickPrimary] at hne
  | cons v vs ih =>
    intro t hne
    by_cases h : scores t < scores v
    · have heq : pickPrimary scores t (v :: vs) = pickPrimary scores v vs := by
        simp [pickPrimary, h]
      rw [heq]
      exact lt_of_lt_of_le h (pickPrimary_le scores vs v).1
    · have heq : pickPrimary scores t (v :: vs) = pickPrimary scores t vs := by
        simp [pickPrimary, h]
      rw [heq] at hne ⊢
      exact ih t hne

theorem pickPrimary_earliest (scores : String → ℚ) :
    ∀ (ts : List String) (t : String), ∀ u ∈ t :: ts,
      scores u = scores (pickPrimary scores t ts) →
      (t :: ts).indexOf (pickPrimary scores t ts) ≤ (t :: ts).indexOf u := by
  intro ts
  induction ts with
  | nil =>
    intro t u hu hsc
    have hut : u = t := by simpa using hu
    subst hut
    simp [pickPrimary]
  | cons v vs ih =>
    intro t u hu hsc
    by_cases h : scores t < scores v
    · have heq : pickPrimary scores t (v :: vs) = pickPrimary scores v vs := by
        simp [pickPrimary, h]
      rw [heq] at hsc ⊢
      have hvle : scores v ≤ scores (pickPrimary scores v vs) := (pickPrimary_le scores vs v).1
      have htlt : scores t < scores (pickPrimary scores v vs) := lt_of_lt_of_le h hvle
      have hpt : pickPrimary scores v vs ≠ t := fun hq => lt_irrefl _ (hq ▸ htlt)
      have hut : u ≠ t := by
        intro hq
        rw [hq] at hsc
        exact absurd hsc (ne_of_lt htlt)
      have hu2 : u ∈ v :: vs := by
        rcases List.mem_cons.mp hu with rfl | h2
        · exact absurd rfl hut
        · exact h2
      rw [List.indexOf_cons_ne _ (Ne.symm hpt), List.indexOf_cons_ne _ (Ne.symm hut)]
      exact Nat.succ_le_succ (ih v u hu2 hsc)
    · have hvt : scores v ≤ scores t := not_lt.mp h
      have heq : pickPrimary scores t (v :: vs) = pickPrimary scores t vs := by
        simp [pickPrimary, h]
      rw [heq] at hsc ⊢
      by_cases hpt : pickPrimary scores t vs = t
      · rw [hpt, List.indexOf_cons_self]
        exact Nat.zero_le _
      · have htlt : scores t < scores (pickPrimary scores t vs) := pickPrimary_strict scores vs t hpt
        have hvlt : scores v < scores (pickPrimary scores t vs) := lt_of_le_of_lt hvt htlt
        have hut : u ≠ t := by
          intro hq
          rw [hq] at hsc
          exact absurd hsc (ne_of_lt htlt)
        have huv : u ≠ v := by
          intro hq
          rw [hq] at hsc
          exact absurd hsc (ne_of_lt hvlt)
        have hpv : pickPrimary scores t vs ≠ v := fun hq => lt_irrefl _ (hq ▸ hvlt)
        have hu3 : u ∈ vs := by
          rcases List.mem_cons.mp hu with rfl | h2
          · exact absurd rfl hut
          · rcases List.mem_cons.mp h2 with rfl | h3
            · exact absurd rfl huv
            · exact h3
        have hIH := ih t u (List.mem_cons_of_mem t hu3) hsc
        rw [List.indexOf_cons_ne _ (Ne.symm hpt), List.indexOf_cons_ne _ (Ne.symm hut)] at hIH
        rw [List.indexOf_cons_ne _ (Ne.symm hpt), List.indexOf_cons_ne _ (Ne.symm hut),
          List.indexOf_cons_ne _ (Ne.symm hpv), List.indexOf_cons_ne _ (Ne.symm huv)]
        exact Nat.succ_le_succ (Nat.succ_le_succ (Nat.le_of_succ_le_succ hIH))

/-- Claim C1: for every scoring function and non-empty topic list, the
assigned primary topic is a topic of maximum score, ties resolved
toward the earliest position in the caller topic list, and the
secondary topics are exactly the topics other than the primary with
score strictly greater than one half. -/
theorem classification_primary_secondary (scores : String → ℚ) (topics : List String)
    (h : topics ≠ []) :
    ∃ p secs, assignTopics scores topics = some (p, secs) ∧
      p ∈ topics ∧
      (∀ u ∈ topics, scores u ≤ scores p) ∧
      (∀ u ∈ topics, scores u = scores p → topics.indexOf p ≤ topics.indexOf u) ∧
      (∀ u, u ∈ secs ↔ (u ∈ topics ∧ u ≠ p ∧ 1 / 2 < scores u)) := by
  cases topics with
  | nil => exact absurd rfl h
  | cons t ts =>
    refine ⟨pickPrimary scores t ts,
      secondaryTopics scores (t :: ts) (pickPrimary scores t ts),
      rfl, pickPrimary_mem scores ts t, ?_, pickPrimary_earliest scores ts t, ?_⟩
    · intro u hu
      rcases List.mem_cons.mp hu with rfl | hu2
      · exact (pickPrimary_le scores ts u).1
      · exact (pickPrimary_le scores ts t).2 u hu2
    · intro u
      simp [secondaryTopics, List.mem_filter]

/-- Witness for claim C1 at the tie fixture with topics B then A. -/
theorem classification_primary_secondary_witness :
    ∃ p secs, assignTopics scoresFixture topicsFixture = some (p, secs) ∧
      p ∈ topicsFixture ∧
      (∀ u ∈ topicsFixture, scoresFixture u ≤ scoresFixture p) ∧
      (∀ u ∈ topicsFixture, scoresFixture u = scoresFixture p →
        topicsFixture.indexOf p ≤ topicsFixture.indexOf u) ∧
      (∀ u, u ∈ secs ↔ (u ∈ topicsFixture ∧ u ≠ p ∧ 1 / 2 < scoresFixture u)) :=
  classification_primary_secondary scoresFixture topicsFixture (by decide)

theorem dotP_self_nonneg (xs : List ℝ) : 0 ≤ dotP xs xs :=
  Finset.sum_nonneg (fun _ _ => mul_self_nonneg _)

theorem dotP_self_eq_sq (xs : List ℝ) :
    dotP xs xs = ∑ i in Finset.range xs.length, (xs.getD i 0) ^ 2 :=
  Finset.sum_congr rfl (fun _ _ => (pow_two _).symm)

theorem dotP_cauchy_schwarz (xs ys : List ℝ) :
    (dotP xs ys) ^ 2 ≤ dotP xs xs * dotP ys ys := by
  have cs := Finset.sum_mul_sq_le_sq_mul_sq (Finset.range xs.length)
    (fun i => xs.getD i 0) (fun i => ys.getD i 0)
  have h2 : ∑ i in Finset.range xs.length, (ys.getD i 0) ^ 2 ≤ dotP ys ys := by
    rw [dotP_self_eq_sq]
    rcases le_total xs.length ys.length with hle | hle
    · exact Finset.sum_le_sum_of_subset_of_nonneg (Finset.range_subset.mpr hle)
        (fun i _ _ => sq_nonneg _)
    · refine le_of_eq (Finset.sum_subset (Finset.range_subset.mpr hle) ?_).symm
      intro i _ hni
      have hli : ys.length ≤ i := Nat.le_of_not_lt (by simpa using hni)
      rw [List.getD_eq_default _ _ hli]
      simp
  calc (dotP xs ys) ^ 2
      ≤ (∑ i in Finset.range xs.length, (xs.getD i 0) ^ 2) *
        (∑ i in Finset.range xs.length, (ys.getD i 0) ^ 2) := cs
    _ ≤ dotP xs xs * dotP ys ys := by
        rw [← dotP_self_eq_sq]
        exact mul_le_mul_of_nonneg_left h2 (dotP_self_nonneg xs)

theorem cosineSim_bounds (xs ys : List ℝ) : -1 ≤ cosineSim xs ys ∧ cosineSim xs ys ≤ 1 := by
  rw [← abs_le]
  unfold cosineSim
  by_cases hz : Real.sqrt (dotP xs xs) * Real.sqrt (dotP ys ys) = 0
  · rw [hz, div_zero, abs_zero]
    exact zero_le_one
  · have hnn : 0 ≤ Real.sqrt (dotP xs xs) * Real.sqrt (dotP ys ys) :=
      mul_nonneg (Real.sqrt_nonneg _) (Real.sqrt_nonneg _)
    have hpos : 0 < Real.sqrt (dotP xs xs) * Real.sqrt (dotP ys ys) :=
      lt_of_le_of_ne hnn (Ne.symm hz)
    rw [abs_div, abs_of_pos hpos, div_le_one hpos]
    have h1 : |dotP xs ys| = Real.sqrt ((dotP xs ys) ^ 2) := (Real.sqrt_sq_eq_abs _).symm
    rw [h1, ← Real.sqrt_mul (dotP_self_nonneg xs)]
    exact Real.sqrt_le_sqrt (dotP_cauchy_schwarz xs ys)

/-- Claim C2 amended: every similarity score returned by the topic
classifier lies in the closed interval from -1 to 1, the cosine
similarity range, for every embedding capability, input text and topic
list. -/
theorem topic_classifier_scores_bounded (encode : String → List ℝ) (text : String)
    (topics : List String) (p : String × ℝ)
    (hp : p ∈ topic_classifier encode text topics) :
    -1 ≤ p.2 ∧ p.2 ≤ 1 := by
  unfold topic_classifier at hp
  rcases List.mem_map.mp hp with ⟨t, _, rfl⟩
  exact cosineSim_bounds _ _

/-- Witness for claim C2 amended at a concrete embedding capability. -/
theorem topic_classifier_scores_bounded_witness :
    -1 ≤ cosineSim (encodeFixture "x") (encodeFixture "t") ∧
    cosineSim (encodeFixture "x") (encodeFixture "t") ≤ 1 :=
  topic_classifier_scores_bounded encodeFixture "x" ["t"]
    ("t", cosineSim (encodeFixture "x") (encodeFixture "t")) (by simp [topic_classifier])

/-- Counterexample to claim C2 as stated: with a concrete embedding
capability the topic classifier returns a negative similarity score,
which therefore does not lie in the interval from 0 to 1. -/
theorem topic_classifier_score_below_zero :
    ∃ p ∈ topic_classifier encodeCex "paper" ["t"], p.2 < 0 := by
  refine ⟨("t", cosineSim (encodeCex "paper") (encodeCex "t")),
    by simp [topic_classifier], ?_⟩
  show cosineSim (encodeCex "paper") (encodeCex "t") < 0
  have hne : ("paper" : String) ≠ "t" := by decide
  have hpaper : encodeCex "paper" = [1, 0] := by simp [encodeCex, hne]
  have ht : encodeCex "t" = [-1, 0] := by simp [encodeCex]
  rw [hpaper, ht]
  have hd : dotP [(1 : ℝ), 0] [(-1 : ℝ), 0] = -1 := by
    simp [dotP, Finset.sum_range_succ]
  have hS : dotP [(1 : ℝ), 0] [(1 : ℝ), 0] = 1 := by
    simp [dotP, Finset.sum_range_succ]
  have hT : dotP [(-1 : ℝ), 0] [(-1 : ℝ), 0] = 1 := by
    simp [dotP, Finset.sum_range_succ]
  unfold cosineSim
  rw [hd, hS, hT, Real.sqrt_one]
  norm_num

theorem string_append_assoc (a b c : String) : (a ++ b) ++ c = a ++ (b ++ c) := by
  cases a with
  | mk ad =>
    cases b with
    | mk bd =>
      cases c with
      | mk cd => exact congrArg String.mk (List.append_assoc ad bd cd)

theorem pathHasRoot_append (root suffix : String) :
    pathHasRoot root (root ++ suffix) = true := by
  cases root with
  | mk rd =>
    cases suffix with
    | mk sd =>
      show rd.isPrefixOf (rd ++ sd) = true
      rw [List.isPrefixOf_iff_prefix]
      exact ⟨sd, rfl⟩

theorem joinPath_as_root (d x : String) : joinPath d x = (d ++ "/") ++ x := rfl

theorem joinPath2_as_root (d s y : String) :
    joinPath (joinPath d s) y = (d ++ "/") ++ (s ++ ("/" ++ y)) := by
  show (((d ++ "/") ++ s) ++ "/") ++ y = (d ++ "/") ++ (s ++ ("/" ++ y))
  rw [string_append_assoc ((d ++ "/") ++ s) "/" y, string_append_assoc (d ++ "/") s ("/" ++ y)]

theorem isPrefixOf_cons_of_ne (c1 c2 : Char) (l1 l2 : List Char) (h : c1 ≠ c2) :
    (c1 :: l1).isPrefixOf (c2 :: l2) = false := by
  simp [List.isPrefixOf, h]

theorem pathHasRoot_false_of_heads (root p : String) (c1 c2 : Char) (h : c1 ≠ c2)
    (hroot : root.data.head? = some c1) (hp : p.data.head? = some c2) :
    pathHasRoot root p = false := by
  unfold pathHasRoot
  cases hr : root.data with
  | nil => rw [hr] at hroot; simp at hroot
  | cons a as =>
    cases hq : p.data with
    | nil => rw [hq] at hp; simp at hp
    | cons b bs =>
      rw [hr] at hroot
      rw [hq] at hp
      simp at hroot hp
      exact isPrefixOf_cons_of_ne a b as bs (by rw [hroot, hp]; exact h)

theorem audio_not_under_session_root (sid text hexTok : String) :
    pathHasRoot (result_dir sid ++ "/") (audio_generator text hexTok).1 = false := by
  apply pathHasRoot_false_of_heads _ _ 'r' 'a' (by decide)
  · cases sid with
    | mk sd => rfl
  · cases hexTok with
    | mk hd => rfl

/-- Claim C8 amended: every file that _save_results writes for a
session is rooted at the session result directory, with synthesis
files named by the topic slug, here checked on the slug of Machine
Learning; the audio files however are written to a process-wide
top-level audio_files directory, not under the session root. -/
theorem session_artifacts_rooted (sid text hexTok : String) (r : SaveInput) (p : String)
    (hp : p ∈ save_results_paths sid r) :
    pathHasRoot (result_dir sid ++ "/") p = true ∧
    pathHasRoot (result_dir sid ++ "/") (audio_generator text hexTok).1 = false ∧
    topicSlug "Machine Learning" = "machine_learning" := by
  refine ⟨?_, audio_not_under_session_root sid text hexTok, by decide⟩
  unfold save_results_paths at hp
  rcases List.mem_cons.mp hp with rfl | hp2
  · rw [joinPath_as_root]
    exact pathHasRoot_append _ _
  · rcases List.mem_append.mp hp2 with hp3 | hp3
    · rcases List.mem_map.mp hp3 with ⟨ps, _, rfl⟩
      rw [joinPath2_as_root]
      exact pathHasRoot_append _ _
    · rcases List.mem_map.mp hp3 with ⟨ts, _, rfl⟩
      rw [joinPath2_as_root]
      exact pathHasRoot_append _ _

/-- Witness for claim C8 amended at a concrete session and payload. -/
theorem session_artifacts_rooted_witness :
    pathHasRoot (result_dir "abc12345" ++ "/")
      (joinPath (joinPath (result_dir "abc12345") "syntheses")
        (topicSlug "Machine Learning" ++ ".md")) = true ∧
    pathHasRoot (result_dir "abc12345" ++ "/")
      (audio_generator "hello" "0123456789abcdef").1 = false ∧
    topicSlug "Machine Learning" = "machine_learning" :=
  session_artifacts_rooted "abc12345" "hello" "0123456789abcdef" saveFixture
    (joinPath (joinPath (result_dir "abc12345") "syntheses")
      (topicSlug "Machine Learning" ++ ".md")) (by decide)

/-- Counterexample to claim C8 as stated: the audio artifact for a
concrete session is written under the top-level audio_files directory
and is not rooted at the session result directory. -/
theorem audio_artifact_outside_session_root :
    (audio_generator "hello" "0123456789abcdef").1 = "audio_files/audio_01234567.mp3" ∧
    pathHasRoot (result_dir "abc12345" ++ "/")
      (audio_generator "hello" "0123456789abcdef").1 = false :=
  ⟨by decide, by decide⟩
